import Mathlib

set_option linter.unusedVariables false

/-! Shallow embedding of the google-calendar-automation repository
    (src/app/services/reservation_service.py, src/app/services/business_hours.py,
    src/app/services/whatsapp.py, src/app/api/whatsapp.py).

    Time is modelled in whole minutes on a linear timeline: an instant is a
    natural number of minutes since an epoch chosen so that day index 0 is a
    Monday; the weekday of day index d is d % 7, and the instant at
    time-of-day t (minutes after midnight) on day d is d * 1440 + t.  The
    Python code works with timezone-aware datetimes in the single fixed
    deployment timezone (Europe/Madrid) and zeroes seconds and microseconds
    before any slot arithmetic, so whole minutes on one linear timeline are a
    faithful carrier for the arithmetic the claims are about.  ISO slot keys
    (slot_start_iso) are injective images of start instants in that fixed
    timezone, so slot keys are modelled by the start instant itself. -/

/-- DEFAULT_DURATION_MINUTES in reservation_service.py: fixed slot length. -/
def DEFAULT_DURATION_MINUTES : Nat := 60

/-- DEFAULT_TOP_N in reservation_service.py. -/
def DEFAULT_TOP_N : Nat := 5

/-- MAX_SLOT_SEARCH_DAYS in reservation_service.py. -/
def MAX_SLOT_SEARCH_DAYS : Nat := 14

/-- SUGGESTION_MEMORY_TTL in reservation_service.py: timedelta(minutes=10),
    expressed in minutes. -/
def SUGGESTION_MEMORY_TTL : Nat := 10

/-- MORNING_END in business_hours.py: time(12, 0) as minutes after midnight. -/
def MORNING_END : Nat := 720

/-- BUSINESS_HOURS in business_hours.py: weekday (0 = Monday .. 6 = Sunday) to
    list of (start, end) working intervals, times of day in minutes after
    midnight.  time(8,0) = 480, time(12,0) = 720, time(14,0) = 840,
    time(17,0) = 1020. -/
def BUSINESS_HOURS (weekday : Nat) : List (Nat × Nat) :=
  match weekday with
  | 0 => [(480, 720)]
  | 1 => [(840, 1020)]
  | 2 => [(480, 720), (840, 1020)]
  | 3 => [(480, 720)]
  | _ => []

/-- The block_filter closure inside _intervals_for_date.  The Python closure
    receives (start_t, end_t) and tests only start_t; a falsy block (the empty
    string) keeps everything, as does an unrecognised block string. -/
def block_filter (block : String) (start_t end_t : Nat) : Bool :=
  if block = "" then true
  else if block = "morning" ∨ block = "manana" ∨ block = "mañana" then
    decide (start_t < MORNING_END)
  else if block = "afternoon" ∨ block = "tarde" then
    decide (MORNING_END ≤ start_t)
  else true

/-- _intervals_for_date in reservation_service.py: working intervals of the
    date with day index d, filtered by block, converted to absolute instants
    (datetime.combine of the date with the time of day). -/
def _intervals_for_date (d : Nat) (block : String) : List (Nat × Nat) :=
  ((BUSINESS_HOURS (d % 7)).filter (fun iv => block_filter block iv.1 iv.2)).map
    (fun iv => (d * 1440 + iv.1, d * 1440 + iv.2))

/-- _align_to_slot in reservation_service.py, on an instant whose seconds and
    microseconds are already zero (the function zeroes them first).
    minute_total is dt.hour * 60 + dt.minute, i.e. dt % 1440; the Python
    divmod/day_increment dance reconstructing the result is
    day_start + next_minutes % 1440 + 1440 * (next_minutes / 1440). -/
def _align_to_slot (dt : Nat) (slot_minutes : Nat) : Nat :=
  let minute_total := dt % 1440
  let remainder := minute_total % slot_minutes
  if remainder = 0 then dt
  else
    let next_minutes := minute_total - remainder + slot_minutes
    (dt - minute_total) + next_minutes % 1440 + 1440 * (next_minutes / 1440)

/-- The overlap test shared by both slot-generation loops:
    candidate_start < busy_end and candidate_end > busy_start, tried against
    every busy interval. -/
def overlapsBusy (candidate_start candidate_end : Nat) (busy : List (Nat × Nat)) : Bool :=
  busy.any (fun b => decide (candidate_start < b.2) && decide (b.1 < candidate_end))

/-- The slot-generation while-loop of check_availability (lines 259-280):
    from cursor, step by 60 minutes while cursor + 60 <= end_dt, emitting the
    candidate window when it overlaps no busy interval.  Structural recursion
    on a fuel counter; slotsCA below supplies fuel end_dt - cursor, which
    bounds the number of iterations since each iteration advances the cursor
    by 60 >= 1. -/
def slotsCAGo : Nat → Nat → Nat → List (Nat × Nat) → List (Nat × Nat)
  | 0, _, _, _ => []
  | fuel + 1, cursor, end_dt, busy =>
    if cursor + 60 ≤ end_dt then
      (if overlapsBusy cursor (cursor + 60) busy then []
       else [(cursor, cursor + 60)]) ++
      slotsCAGo fuel (cursor + 60) end_dt busy
    else []

/-- The check_availability slot loop for one business interval, starting from
    the already-aligned cursor. -/
def slotsCA (cursor end_dt : Nat) (busy : List (Nat × Nat)) : List (Nat × Nat) :=
  slotsCAGo (end_dt - cursor) cursor end_dt busy

/-- The slot-generation while-loop of list_next_slots (lines 409-433): like
    slotsCA but it also stops once the global slot budget (top_n minus the
    slots already collected) is exhausted, and, when a user key is present, a
    candidate whose key is in the user's recent-suggestion set is treated as
    unavailable (overlap = True, lines 421-422). -/
def slotsLNSGo : Nat → Nat → Nat → List (Nat × Nat) → List Nat → String → Nat → List (Nat × Nat)
  | 0, _, _, _, _, _, _ => []
  | fuel + 1, cursor, end_dt, busy, recent, user_key, budget =>
    if cursor + 60 ≤ end_dt ∧ 0 < budget then
      if overlapsBusy cursor (cursor + 60) busy || ((user_key != "") && recent.contains cursor) then
        slotsLNSGo fuel (cursor + 60) end_dt busy recent user_key budget
      else
        (cursor, cursor + 60) ::
          slotsLNSGo fuel (cursor + 60) end_dt busy recent user_key (budget - 1)
    else []

/-- The list_next_slots slot loop for one business interval, starting from the
    already-aligned cursor. -/
def slotsLNS (cursor end_dt : Nat) (busy : List (Nat × Nat)) (recent : List Nat)
    (user_key : String) (budget : Nat) : List (Nat × Nat) :=
  slotsLNSGo (end_dt - cursor) cursor end_dt busy recent user_key budget

theorem align_eq (dt : Nat) :
    _align_to_slot dt 60 = if dt % 60 = 0 then dt else dt - dt % 60 + 60 := by
  unfold _align_to_slot
  have h6 : dt % 1440 % 60 = dt % 60 := Nat.mod_mod_of_dvd dt (by norm_num)
  simp only [h6]
  by_cases h : dt % 60 = 0
  · simp [h]
  · simp only [h, if_false]
    have hrec : (dt % 1440 - dt % 60 + 60) % 1440 + 1440 * ((dt % 1440 - dt % 60 + 60) / 1440)
        = dt % 1440 - dt % 60 + 60 := Nat.mod_add_div (dt % 1440 - dt % 60 + 60) 1440
    have h1 : dt % 60 ≤ dt % 1440 := by
      conv_lhs => rw [← h6]
      exact Nat.mod_le _ _
    have h2 : dt % 1440 ≤ dt := Nat.mod_le _ _
    omega

theorem align_least (dt : Nat) :
    _align_to_slot dt 60 % 60 = 0 ∧ dt ≤ _align_to_slot dt 60 ∧ _align_to_slot dt 60 < dt + 60 := by
  rw [align_eq]
  by_cases h : dt % 60 = 0
  · rw [if_pos h]
    omega
  · rw [if_neg h]
    omega

theorem align_mod (dt : Nat) : _align_to_slot dt 60 % 60 = 0 :=
  (align_least dt).1

theorem align_ge (dt : Nat) : dt ≤ _align_to_slot dt 60 :=
  (align_least dt).2.1

theorem overlapsBusy_eq_false (cs ce : Nat) (busy : List (Nat × Nat)) :
    overlapsBusy cs ce busy = false ↔ ∀ b ∈ busy, ¬(cs < b.2 ∧ b.1 < ce) := by
  simp [overlapsBusy, List.any_eq_false]

theorem slotsCAGo_mem (fuel : Nat) :
    ∀ (cursor end_dt : Nat) (busy : List (Nat × Nat)) (p : Nat × Nat),
      p ∈ slotsCAGo fuel cursor end_dt busy →
        cursor ≤ p.1 ∧ p.1 % 60 = cursor % 60 ∧ p.2 = p.1 + 60 ∧
          overlapsBusy p.1 p.2 busy = false := by
  induction fuel with
  | zero => intro cursor end_dt busy p hp; simp [slotsCAGo] at hp
  | succ n ih =>
    intro cursor end_dt busy p hp
    simp only [slotsCAGo] at hp
    by_cases hle : cursor + 60 ≤ end_dt
    · rw [if_pos hle] at hp
      by_cases hov : overlapsBusy cursor (cursor + 60) busy
      · rw [if_pos hov] at hp
        simp only [List.nil_append] at hp
        obtain ⟨h1, h2, h3, h4⟩ := ih (cursor + 60) end_dt busy p hp
        exact ⟨by omega, by omega, h3, h4⟩
      · rw [if_neg hov] at hp
        simp only [List.cons_append, List.nil_append, List.mem_cons] at hp
        rcases hp with hp | hp
        · subst hp
          refine ⟨Nat.le_refl _, rfl, rfl, ?_⟩
          exact Bool.eq_false_iff.mpr hov
        · obtain ⟨h1, h2, h3, h4⟩ := ih (cursor + 60) end_dt busy p hp
          exact ⟨by omega, by omega, h3, h4⟩
    · rw [if_neg hle] at hp
      simp at hp

theorem slotsCAGo_pairwise (fuel : Nat) :
    ∀ (cursor end_dt : Nat) (busy : List (Nat × Nat)),
      List.Pairwise (fun p q : Nat × Nat => p.1 < q.1) (slotsCAGo fuel cursor end_dt busy) := by
  induction fuel with
  | zero => intro cursor end_dt busy; simp [slotsCAGo]
  | succ n ih =>
    intro cursor end_dt busy
    simp only [slotsCAGo]
    by_cases hle : cursor + 60 ≤ end_dt
    · rw [if_pos hle]
      by_cases hov : overlapsBusy cursor (cursor + 60) busy
      · rw [if_pos hov]
        simpa using ih (cursor + 60) end_dt busy
      · rw [if_neg hov]
        simp only [List.cons_append, List.nil_append]
        refine List.Pairwise.cons ?_ (ih (cursor + 60) end_dt busy)
        intro q hq
        have := slotsCAGo_mem n (cursor + 60) end_dt busy q hq
        omega
    · rw [if_neg hle]
      simp

theorem slotsLNSGo_mem (fuel : Nat) :
    ∀ (cursor end_dt : Nat) (busy : List (Nat × Nat)) (recent : List Nat)
      (user_key : String) (budget : Nat) (p : Nat × Nat),
      p ∈ slotsLNSGo fuel cursor end_dt busy recent user_key budget →
        cursor ≤ p.1 ∧ p.1 % 60 = cursor % 60 ∧ p.2 = p.1 + 60 ∧
          overlapsBusy p.1 p.2 busy = false ∧
          (user_key ≠ "" → recent.contains p.1 = false) := by
  induction fuel with
  | zero => intro cursor end_dt busy recent user_key budget p hp; simp [slotsLNSGo] at hp
  | succ n ih =>
    intro cursor end_dt busy recent user_key budget p hp
    simp only [slotsLNSGo] at hp
    by_cases hcond : cursor + 60 ≤ end_dt ∧ 0 < budget
    · rw [if_pos hcond] at hp
      by_cases hskip :
          overlapsBusy cursor (cursor + 60) busy || ((user_key != "") && recent.contains cursor)
      · rw [if_pos hskip] at hp
        obtain ⟨h1, h2, h3, h4, h5⟩ := ih (cursor + 60) end_dt busy recent user_key budget p hp
        exact ⟨by omega, by omega, h3, h4, h5⟩
      · rw [if_neg hskip] at hp
        simp only [Bool.or_eq_true, Bool.and_eq_true, bne_iff_ne, ne_eq, not_or, not_and] at hskip
        simp only [List.mem_cons] at hp
        rcases hp with hp | hp
        · subst hp
          refine ⟨Nat.le_refl _, rfl, rfl, Bool.eq_false_iff.mpr hskip.1, ?_⟩
          intro hk
          exact Bool.eq_false_iff.mpr (hskip.2 hk)
        · obtain ⟨h1, h2, h3, h4, h5⟩ := ih (cursor + 60) end_dt busy recent user_key (budget - 1) p hp
          exact ⟨by omega, by omega, h3, h4, h5⟩
    · rw [if_neg hcond] at hp
      simp at hp

theorem slotsLNSGo_pairwise (fuel : Nat) :
    ∀ (cursor end_dt : Nat) (busy : List (Nat × Nat)) (recent : List Nat)
      (user_key : String) (budget : Nat),
      List.Pairwise (fun p q : Nat × Nat => p.1 < q.1)
        (slotsLNSGo fuel cursor end_dt busy recent user_key budget) := by
  induction fuel with
  | zero => intro cursor end_dt busy recent user_key budget; simp [slotsLNSGo]
  | succ n ih =>
    intro cursor end_dt busy recent user_key budget
    simp only [slotsLNSGo]
    by_cases hcond : cursor + 60 ≤ end_dt ∧ 0 < budget
    · rw [if_pos hcond]
      by_cases hskip :
          overlapsBusy cursor (cursor + 60) busy || ((user_key != "") && recent.contains cursor)
      · rw [if_pos hskip]
        exact ih (cursor + 60) end_dt busy recent user_key budget
      · rw [if_neg hskip]
        refine List.Pairwise.cons ?_ (ih (cursor + 60) end_dt busy recent user_key (budget - 1))
        intro q hq
        have := slotsLNSGo_mem n (cursor + 60) end_dt busy recent user_key (budget - 1) q hq
        omega
    · rw [if_neg hcond]
      simp

/-- ReservationService._ensure_business_hours for a request at time-of-day t on
    the date with day index d: raises ValueError ("Outside business hours")
    when the date has no business intervals or when the start instant lies in
    no interval; modelled as a Bool (true = no exception). -/
def _ensure_business_hours (d t : Nat) : Bool :=
  let dt := d * 1440 + t
  let intervals := _intervals_for_date d ""
  !intervals.isEmpty && intervals.any (fun iv => decide (iv.1 ≤ dt) && decide (dt < iv.2))

/-- Result dictionary of check_availability.  available_slots keeps the slot
    windows as (start, end) instants; the Python code renders them to speech
    strings, an injective presentation step that is dropped here. -/
structure CAResult where
  available : Bool
  available_slots : List (Nat × Nat)
  slots_in_day : Bool
deriving DecidableEq, Repr

/-- Insertion step of the by-start-key sort. -/
def insertByStart (x : Nat × Nat) : List (Nat × Nat) → List (Nat × Nat)
  | [] => [x]
  | y :: ys => if x.1 ≤ y.1 then x :: y :: ys else y :: insertByStart x ys

/-- Python sorted(slots, key=slot_start_iso): a sort of the slot list by start
    key (in the fixed timezone the ISO key order is the start-instant order).
    Modelled as insertion sort; only that the result is a by-key-sorted
    rearrangement matters, and slot windows are determined by their start. -/
def sortByStart : List (Nat × Nat) → List (Nat × Nat)
  | [] => []
  | x :: xs => insertByStart x (sortByStart xs)

/-- ReservationService.check_availability for a request at time-of-day t on day
    index d, with busy the freebusy answer for the whole-day query window.
    Date/time parsing, the timezone plumbing and the speech rendering are
    transport; the ValueError raised by _ensure_business_hours is the error
    case.  The requested window is [start, start + 60). -/
def check_availability (d t : Nat) (busy : List (Nat × Nat)) : Except String CAResult :=
  if !_ensure_business_hours d t then .error "Outside business hours."
  else
    let start := d * 1440 + t
    let intervals := _intervals_for_date d ""
    if intervals.isEmpty then .ok ⟨false, [], false⟩
    else
      let requested_available := !overlapsBusy start (start + 60) busy
      let slots_for_day :=
        intervals.foldr (fun iv acc => slotsCA (_align_to_slot iv.1 60) iv.2 busy ++ acc) []
      let sorted := sortByStart slots_for_day
      .ok ⟨requested_available, sorted, !sorted.isEmpty⟩

/-- Result of create_reservation: whether an event was created and, when it
    was, the [start, end) window of the inserted calendar event. -/
structure CRResult where
  created : Bool
  event : Option (Nat × Nat)
  reason : String
deriving DecidableEq, Repr

/-- ReservationService.create_reservation for a request at time-of-day t on day
    index d with busy the freebusy answer used by the nested
    check_availability call: re-runs _ensure_business_hours, then
    check_availability; if the requested window is reported unavailable it
    returns created=False reason,"not_available", otherwise it inserts the
    event with the window [start, start + 60) from _extract_time_window. -/
def create_reservation (d t : Nat) (busy : List (Nat × Nat)) : Except String CRResult :=
  if !_ensure_business_hours d t then .error "Outside business hours."
  else
    match check_availability d t busy with
    | .error e => .error e
    | .ok availability =>
      if !availability.available then .ok ⟨false, none, "not_available"⟩
      else .ok ⟨true, some (d * 1440 + t, d * 1440 + t + 60), ""⟩

/-- ReservationService._recent_suggestions: the slot keys recorded for this
    user whose timestamp is within the TTL of now (now - ts < TTL); an empty
    user key reads nothing.  memory is this user's _SUGGESTION_MEMORY list of
    (slot key, offered-at) pairs. -/
def _recent_suggestions (user_key : String) (memory : List (Nat × Nat)) (now : Nat) : List Nat :=
  if user_key = "" then []
  else (memory.filter (fun e => decide (now - e.2 < SUGGESTION_MEMORY_TTL))).map (fun e => e.1)

/-- The for-loop of list_next_slots over the business intervals of one day
    (lines 394-433): per interval the calendar is queried for that interval's
    window (busyOf), the cursor starts at the interval start, is clamped to
    now when the day under evaluation is today and the start is in the past,
    then aligned, and the interval's slot loop runs with the remaining
    budget. -/
def collectIntervals (ivs : List (Nat × Nat)) (busyOf : Nat × Nat → List (Nat × Nat))
    (now_day now cur_day : Nat) (recent : List Nat) (user_key : String) (budget : Nat) :
    List (Nat × Nat) :=
  match ivs with
  | [] => []
  | iv :: rest =>
    let busy := busyOf iv
    let cursor0 := if cur_day = now_day ∧ iv.1 < now then now else iv.1
    let cursor := _align_to_slot cursor0 60
    let got := slotsLNS cursor iv.2 busy recent user_key budget
    got ++ collectIntervals rest busyOf now_day now cur_day recent user_key (budget - got.length)

/-- The day-walking while-loop of list_next_slots (lines 386-433):
    while len(slots) < top_n and day_offset < MAX_SLOT_SEARCH_DAYS, evaluate
    the day at search_date + day_offset.  Structural recursion on the number
    of remaining day offsets (14 at the top call). -/
def collectDays : Nat → Nat → Nat → String → (Nat × Nat → List (Nat × Nat)) → Nat → Nat →
    List Nat → String → Nat → List (Nat × Nat)
  | 0, _, _, _, _, _, _, _, _, _ => []
  | rem + 1, day_offset, search_day, block, busyOf, now_day, now, recent, user_key, budget =>
    if 0 < budget then
      let cur_day := search_day + day_offset
      let got := collectIntervals (_intervals_for_date cur_day block) busyOf
        now_day now cur_day recent user_key budget
      got ++ collectDays rem (day_offset + 1) search_day block busyOf now_day now recent user_key
        (budget - got.length)
    else []

/-- The value returned by list_next_slots (available_slots, suggested) together
    with the state of this user's _SUGGESTION_MEMORY entry after the call. -/
structure LNSResult where
  available_slots : List (Nat × Nat)
  suggested : Option (Nat × Nat)
  memoryAfter : List (Nat × Nat)
deriving DecidableEq, Repr

/-- ReservationService.list_next_slots.  Inputs: block (already lowercased by
    line 350), desde as the parsed search date (none when absent; the Python
    fallback for an unparseable string is today + 7 and is a caller-side
    choice of this argument), now the wall clock of line 362, memory_now the
    wall clock of line 380 (a second datetime.now call), busyOf the freebusy
    answer per queried interval window, user_key chat_id or customer_number,
    memory this user's _SUGGESTION_MEMORY list.  A past or current desde is
    replaced by today (lines 372-375).  After collecting, the slots are
    sorted by start key, the top 5 kept, the first candidate not recently
    suggested picked; if none was picked although slots exist and a user key
    is present, the user's memory is replaced by [] and the first slot is
    re-offered (lines 446-449); a successful pick is appended to the memory
    (lines 452-453). -/
def list_next_slots (block : String) (desde : Option Nat) (now memory_now : Nat)
    (busyOf : Nat × Nat → List (Nat × Nat)) (user_key : String) (memory : List (Nat × Nat)) :
    LNSResult :=
  let now_day := now / 1440
  let search_day0 := match desde with | some d2 => d2 | none => now_day
  let search_day := if search_day0 ≤ now_day then now_day else search_day0
  let recent := _recent_suggestions user_key memory memory_now
  let slots := collectDays MAX_SLOT_SEARCH_DAYS 0 search_day block busyOf now_day now recent
    user_key DEFAULT_TOP_N
  let top_slots := (sortByStart slots).take DEFAULT_TOP_N
  let candidate0 := top_slots.find? (fun s => !recent.contains s.1)
  let rotate := candidate0.isNone && !top_slots.isEmpty && (user_key != "")
  let memory1 := if rotate then [] else memory
  let candidate := if rotate then top_slots.head? else candidate0
  let suggested := match candidate with | some c => some c | none => top_slots.head?
  let memoryAfter :=
    match suggested with
    | some s => if user_key = "" then memory1 else memory1 ++ [(s.1, memory_now)]
    | none => memory1
  ⟨top_slots, suggested, memoryAfter⟩

theorem mem_insertByStart (x a : Nat × Nat) (l : List (Nat × Nat)) :
    a ∈ insertByStart x l ↔ a = x ∨ a ∈ l := by
  induction l with
  | nil => simp [insertByStart]
  | cons y ys ih =>
    simp only [insertByStart]
    by_cases h : x.1 ≤ y.1
    · rw [if_pos h]
      simp
    · rw [if_neg h]
      simp only [List.mem_cons, ih]
      tauto

theorem mem_sortByStart (a : Nat × Nat) (l : List (Nat × Nat)) :
    a ∈ sortByStart l ↔ a ∈ l := by
  induction l with
  | nil => simp [sortByStart]
  | cons y ys ih =>
    simp only [sortByStart, mem_insertByStart, ih, List.mem_cons]

theorem intervals_start_lb (d : Nat) (block : String) (iv : Nat × Nat)
    (h : iv ∈ _intervals_for_date d block) : d * 1440 ≤ iv.1 := by
  simp only [_intervals_for_date, List.mem_map, List.mem_filter] at h
  obtain ⟨raw, _, hmap⟩ := h
  rw [← hmap]
  omega

theorem collectIntervals_mem (ivs : List (Nat × Nat)) (busyOf : Nat × Nat → List (Nat × Nat))
    (now_day now cur_day : Nat) (recent : List Nat) (user_key : String) (budget : Nat)
    (p : Nat × Nat)
    (hp : p ∈ collectIntervals ivs busyOf now_day now cur_day recent user_key budget) :
    p.1 % 60 = 0 ∧ p.2 = p.1 + 60 ∧
      (user_key ≠ "" → recent.contains p.1 = false) ∧
      (cur_day = now_day → now ≤ p.1) ∧
      (∃ iv ∈ ivs, iv.1 ≤ p.1) := by
  induction ivs generalizing budget with
  | nil => simp [collectIntervals] at hp
  | cons iv rest ih =>
    simp only [collectIntervals, List.mem_append] at hp
    rcases hp with hp | hp
    · by_cases hc : cur_day = now_day ∧ iv.1 < now
      · rw [if_pos hc] at hp
        obtain ⟨h1, h2, h3, h4, h5⟩ := slotsLNSGo_mem _ _ _ _ _ _ _ p hp
        have halign := align_least now
        exact ⟨by omega, h3, h5, fun _ => by omega,
          ⟨iv, List.mem_cons_self _ _, by omega⟩⟩
      · rw [if_neg hc] at hp
        obtain ⟨h1, h2, h3, h4, h5⟩ := slotsLNSGo_mem _ _ _ _ _ _ _ p hp
        have halign := align_least iv.1
        refine ⟨by omega, h3, h5, ?_, ⟨iv, List.mem_cons_self _ _, by omega⟩⟩
        intro hd
        have hge : ¬ iv.1 < now := fun hlt => hc ⟨hd, hlt⟩
        omega
    · obtain ⟨h1, h2, h3, h4, ⟨iv2, hiv2, hle⟩⟩ := ih _ hp
      exact ⟨h1, h2, h3, h4, ⟨iv2, List.mem_cons_of_mem _ hiv2, hle⟩⟩

theorem collectDays_mem (rem : Nat) :
    ∀ (day_offset search_day : Nat) (block : String) (busyOf : Nat × Nat → List (Nat × Nat))
      (now_day now : Nat) (recent : List Nat) (user_key : String) (budget : Nat) (p : Nat × Nat),
      now < (now_day + 1) * 1440 →
      p ∈ collectDays rem day_offset search_day block busyOf now_day now recent user_key budget →
        p.1 % 60 = 0 ∧ p.2 = p.1 + 60 ∧
          (user_key ≠ "" → recent.contains p.1 = false) ∧
          (search_day = now_day → now ≤ p.1) := by
  induction rem with
  | zero =>
    intro day_offset search_day block busyOf now_day now recent user_key budget p hnow hp
    simp [collectDays] at hp
  | succ n ih =>
    intro day_offset search_day block busyOf now_day now recent user_key budget p hnow hp
    simp only [collectDays] at hp
    by_cases hb : 0 < budget
    · rw [if_pos hb] at hp
      simp only [List.mem_append] at hp
      rcases hp with hp | hp
      · obtain ⟨h1, h2, h3, h4, ⟨iv, hiv, hle⟩⟩ := collectIntervals_mem _ _ _ _ _ _ _ _ p hp
        refine ⟨h1, h2, h3, ?_⟩
        intro hsd
        by_cases hcur : search_day + day_offset = now_day
        · exact h4 hcur
        · have hlb := intervals_start_lb _ _ _ hiv
          have hoff : 1 ≤ day_offset := by omega
          have : (now_day + 1) * 1440 ≤ (search_day + day_offset) * 1440 := by
            have : now_day + 1 ≤ search_day + day_offset := by omega
            exact Nat.mul_le_mul_right 1440 this
          omega
      · exact ih _ _ _ _ _ _ _ _ _ p hnow hp
    · rw [if_neg hb] at hp
      simp at hp

theorem list_next_slots_mem (block : String) (desde : Option Nat) (now memory_now : Nat)
    (busyOf : Nat × Nat → List (Nat × Nat)) (user_key : String) (memory : List (Nat × Nat))
    (p : Nat × Nat)
    (hp : p ∈ (list_next_slots block desde now memory_now busyOf user_key memory).available_slots) :
    p.1 % 60 = 0 ∧ p.2 = p.1 + 60 ∧
      (user_key ≠ "" →
        (_recent_suggestions user_key memory memory_now).contains p.1 = false) ∧
      ((∀ d2, desde = some d2 → d2 ≤ now / 1440) → now ≤ p.1) := by
  have hnow : now < (now / 1440 + 1) * 1440 := by omega
  match desde with
  | none =>
    simp only [list_next_slots, Nat.le_refl, if_pos] at hp
    have hp2 := List.take_subset _ _ hp
    rw [mem_sortByStart] at hp2
    obtain ⟨h1, h2, h3, h4⟩ := collectDays_mem MAX_SLOT_SEARCH_DAYS _ _ _ _ _ _ _ _ _
      p hnow hp2
    exact ⟨h1, h2, h3, fun _ => h4 rfl⟩
  | some d2 =>
    simp only [list_next_slots] at hp
    have hp2 := List.take_subset _ _ hp
    rw [mem_sortByStart] at hp2
    by_cases hle : d2 ≤ now / 1440
    · rw [if_pos hle] at hp2
      obtain ⟨h1, h2, h3, h4⟩ := collectDays_mem MAX_SLOT_SEARCH_DAYS _ _ _ _ _ _ _ _ _
        p hnow hp2
      exact ⟨h1, h2, h3, fun _ => h4 rfl⟩
    · rw [if_neg hle] at hp2
      obtain ⟨h1, h2, h3, h4⟩ := collectDays_mem MAX_SLOT_SEARCH_DAYS _ _ _ _ _ _ _ _ _
        p hnow hp2
      refine ⟨h1, h2, h3, ?_⟩
      intro hdes
      exact absurd (hdes d2 rfl) hle

theorem caSlots_mem (intervals busy : List (Nat × Nat)) (p : Nat × Nat)
    (hp : p ∈ intervals.foldr
      (fun iv acc => slotsCA (_align_to_slot iv.1 60) iv.2 busy ++ acc) []) :
    p.1 % 60 = 0 ∧ p.2 = p.1 + 60 ∧ overlapsBusy p.1 p.2 busy = false := by
  induction intervals with
  | nil => simp at hp
  | cons iv rest ih =>
    simp only [List.foldr_cons, List.mem_append] at hp
    rcases hp with hp | hp
    · obtain ⟨h1, h2, h3, h4⟩ := slotsCAGo_mem _ _ _ _ p hp
      have := align_mod iv.1
      exact ⟨by omega, h3, h4⟩
    · exact ih hp

/-- C1: the slot-generation loops of check_availability (lines 256-282) and
    list_next_slots (lines 409-435) never emit a slot whose [start, start+60)
    window overlaps any busy interval supplied for that query, where overlap
    is candidate.start < busy.end AND candidate.end > busy.start, and the
    emitted slots are in strictly increasing chronological order. -/
theorem C1_slot_loops_no_overlap_chronological (cursor end_dt : Nat)
    (busy : List (Nat × Nat)) (recent : List Nat) (user_key : String) (budget : Nat) :
    (∀ p ∈ slotsCA cursor end_dt busy,
      p.2 = p.1 + 60 ∧ ∀ b ∈ busy, ¬(p.1 < b.2 ∧ b.1 < p.2)) ∧
    List.Pairwise (fun p q : Nat × Nat => p.1 < q.1) (slotsCA cursor end_dt busy) ∧
    (∀ p ∈ slotsLNS cursor end_dt busy recent user_key budget,
      p.2 = p.1 + 60 ∧ ∀ b ∈ busy, ¬(p.1 < b.2 ∧ b.1 < p.2)) ∧
    List.Pairwise (fun p q : Nat × Nat => p.1 < q.1)
      (slotsLNS cursor end_dt busy recent user_key budget) := by
  refine ⟨?_, slotsCAGo_pairwise _ _ _ _, ?_, slotsLNSGo_pairwise _ _ _ _ _ _ _⟩
  · intro p hp
    obtain ⟨h1, h2, h3, h4⟩ := slotsCAGo_mem _ _ _ _ p hp
    exact ⟨h3, (overlapsBusy_eq_false _ _ _).mp h4⟩
  · intro p hp
    obtain ⟨h1, h2, h3, h4, h5⟩ := slotsLNSGo_mem _ _ _ _ _ _ _ p hp
    exact ⟨h3, (overlapsBusy_eq_false _ _ _).mp h4⟩

/-- C1 witness: a concrete run of the check_availability loop over the
    interval 8:00-12:00 with one busy interval [8:20, 9:20). -/
theorem C1_slot_loops_no_overlap_chronological_witness :
    (600, 660) ∈ slotsCA 480 720 [(500, 560)] ∧ ¬((600 : Nat) < 560 ∧ 500 < 660) :=
  ⟨by decide,
    ((C1_slot_loops_no_overlap_chronological 480 720 [(500, 560)] [] "" 5).1
      (600, 660) (by decide)).2 (500, 560) (by decide)⟩

/-- Calendar answer used in the concrete list_next_slots runs below: every
    queried interval window is reported fully busy, except the
    Monday-morning window of day 0 (absolute start 480 = Monday 08:00),
    which is busy only from 09:00 on, leaving 08:00-09:00 as the single free
    slot in the whole 14-day lookahead. -/
def busyAllButFirstSlot : Nat × Nat → List (Nat × Nat) :=
  fun iv => if iv.1 = 480 then [(540, iv.2)] else [iv]

/-- C2: with user key "u" at now = 0 (Monday 00:00), the only free slot of
    the lookahead window (480 = Monday 08:00) is already recorded in the
    user's suggestion memory within the TTL, so every candidate has been
    offered; the claim says the memory is then cleared and the first
    candidate re-offered, but list_next_slots returns no slots and no
    suggestion and leaves the memory entry in place: the full-rotation reset
    branch (lines 446-449) is unreachable because recently suggested slots
    were already dropped during generation (lines 421-422), contradicting
    the code's own comment "Rotate again if all options have been offered in
    the last TTL window".  The second conjunct shows 480 is the candidate
    that would be offered were the memory empty. -/
theorem C2_full_rotation_reset_unreachable :
    480 ∈ _recent_suggestions "u" [(480, 0)] 0 ∧
    list_next_slots "" none 0 0 busyAllButFirstSlot "u" [(480, 0)] =
      ⟨[], none, [(480, 0)]⟩ ∧
    (list_next_slots "" none 0 0 busyAllButFirstSlot "u" []).suggested = some (480, 540) := by
  refine ⟨by decide, by decide, by decide⟩

/-- C3 counterexample: with a fully free calendar and slot 480 recorded in
    the user's suggestion memory within the TTL, the returned available_slots
    does not contain the free business-hours slot (480, 540) at all — it
    does not merely lose the suggested-pick position.  With an empty memory
    the same call returns (480, 540) in first position. -/
theorem C3_recent_slot_removed_cex :
    480 ∈ _recent_suggestions "u" [(480, 0)] 0 ∧
    (list_next_slots "" none 0 0 (fun _ => []) "u" [(480, 0)]).available_slots =
      [(540, 600), (600, 660), (660, 720), (2280, 2340), (2340, 2400)] ∧
    (480, 540) ∉ (list_next_slots "" none 0 0 (fun _ => []) "u" [(480, 0)]).available_slots ∧
    (list_next_slots "" none 0 0 (fun _ => []) "u" []).available_slots =
      [(480, 540), (540, 600), (600, 660), (660, 720), (2280, 2340)] := by
  refine ⟨by decide, by decide, by decide, by decide⟩

/-- C3 amended: for every call with a non-empty user key, slots recorded in
    the user's suggestion memory within the TTL are excluded from the
    returned available_slots list entirely (they are treated as unavailable
    during slot generation), in addition to never being the suggested
    pick. -/
theorem C3_recent_slots_excluded_from_list (block : String) (desde : Option Nat)
    (now memory_now : Nat) (busyOf : Nat × Nat → List (Nat × Nat)) (user_key : String)
    (memory : List (Nat × Nat)) (h : user_key ≠ "") :
    ∀ p ∈ (list_next_slots block desde now memory_now busyOf user_key memory).available_slots,
      p.1 ∉ _recent_suggestions user_key memory memory_now := by
  intro p hp
  have h3 := (list_next_slots_mem block desde now memory_now busyOf user_key memory p hp).2.2.1 h
  simpa using h3

/-- C3 amended witness: the concrete run above, at the slot (540, 600). -/
theorem C3_recent_slots_excluded_from_list_witness :
    (540, 600).1 ∉ _recent_suggestions "u" [(480, 0)] 0 :=
  C3_recent_slots_excluded_from_list "" none 0 0 (fun _ => []) "u" [(480, 0)]
    (by decide) (540, 600) (by decide)

/-- C8: when the effective search start of list_next_slots is the current day
    (desde absent, or desde not after today, which lines 372-375 normalise to
    today), no returned slot starts strictly before the current instant: on
    the current day the cursor is clamped to max(interval start, now) before
    alignment (lines 404-407), and later days start after today ends. -/
theorem C8_no_past_slots_today (block : String) (desde : Option Nat) (now memory_now : Nat)
    (busyOf : Nat × Nat → List (Nat × Nat)) (user_key : String) (memory : List (Nat × Nat))
    (h : ∀ d2, desde = some d2 → d2 ≤ now / 1440) :
    ∀ p ∈ (list_next_slots block desde now memory_now busyOf user_key memory).available_slots,
      now ≤ p.1 :=
  fun p hp =>
    (list_next_slots_mem block desde now memory_now busyOf user_key memory p hp).2.2.2 h

/-- C8 witness: at now = 490 (Monday 08:10) with a free calendar the first
    returned slot is (540, 600), which does not precede now. -/
theorem C8_no_past_slots_today_witness :
    (540, 600) ∈ (list_next_slots "" none 490 490 (fun _ => []) "" []).available_slots ∧
    (490 : Nat) ≤ 540 :=
  ⟨by decide,
    C8_no_past_slots_today "" none 490 490 (fun _ => []) "" []
      (fun d2 hd => nomatch hd) (540, 600) (by decide)⟩

/-- C9: _align_to_slot is the least 60-minute boundary at or after its
    (second-zeroed) input, rolling over to the next day when needed, and
    every slot produced by check_availability or list_next_slots has a
    boundary-aligned start (start % 60 = 0, i.e. its minute-of-day is a
    multiple of 60) and a width of exactly 60 minutes. -/
theorem C9_slot_alignment :
    (∀ dt : Nat, _align_to_slot dt 60 % 60 = 0 ∧ dt ≤ _align_to_slot dt 60 ∧
      _align_to_slot dt 60 < dt + 60) ∧
    (∀ (d t : Nat) (busy : List (Nat × Nat)) (r : CAResult),
      check_availability d t busy = .ok r →
      ∀ p ∈ r.available_slots, p.1 % 60 = 0 ∧ p.2 = p.1 + 60) ∧
    (∀ (block : String) (desde : Option Nat) (now memory_now : Nat)
      (busyOf : Nat × Nat → List (Nat × Nat)) (user_key : String)
      (memory : List (Nat × Nat)),
      ∀ p ∈ (list_next_slots block desde now memory_now busyOf user_key memory).available_slots,
        p.1 % 60 = 0 ∧ p.2 = p.1 + 60) := by
  refine ⟨align_least, ?_, ?_⟩
  · intro d t busy r hr p hp
    simp only [check_availability] at hr
    split at hr
    · cases hr
    · split at hr
      · injection hr with heq
        subst heq
        simp at hp
      · injection hr with heq
        subst heq
        dsimp only at hp
        rw [mem_sortByStart] at hp
        obtain ⟨h1, h2, h3⟩ := caSlots_mem _ _ p hp
        exact ⟨h1, h2⟩
  · intro block desde now memory_now busyOf user_key memory p hp
    obtain ⟨h1, h2, h3, h4⟩ :=
      list_next_slots_mem block desde now memory_now busyOf user_key memory p hp
    exact ⟨h1, h2⟩

/-- C9 witness: the concrete alignment 490 -> 540 and the slots of a
    check_availability run on Monday day 0 with a free calendar. -/
theorem C9_slot_alignment_witness :
    check_availability 0 480 [] =
      .ok ⟨true, [(480, 540), (540, 600), (600, 660), (660, 720)], true⟩ ∧
    ((540 : Nat) % 60 = 0 ∧ (600 : Nat) = 540 + 60) :=
  ⟨by rfl,
    C9_slot_alignment.2.1 0 480 []
      ⟨true, [(480, 540), (540, 600), (600, 660), (660, 720)], true⟩
      (by rfl) (540, 600) (by decide)⟩

/-- C10: the business-hours validation of create_reservation checks only that
    the requested start instant lies inside some business interval; it never
    checks that start + 60 minutes fits inside the interval, so a request for
    Monday 11:30 (t = 690) on a day whose single interval ends at 12:00
    (absolute minute 720) is accepted and the created event window
    (690, 750) extends past the end of business hours. -/
theorem C10_business_hours_end_unchecked :
    _intervals_for_date 0 "" = [(480, 720)] ∧
    _ensure_business_hours 0 690 = true ∧
    create_reservation 0 690 [] = .ok ⟨true, some (690, 750), ""⟩ ∧
    (720 : Nat) < 750 := by
  refine ⟨by decide, by decide, by rfl, by decide⟩

/-- C6: over the configured business intervals, the "morning" filter keeps
    exactly the intervals whose end is at or before the 12:00 boundary, and
    the "afternoon" filter keeps exactly those whose start is at or after it.
    The code tests start < MORNING_END for "morning", which coincides with
    end <= MORNING_END on every interval configured in BUSINESS_HOURS. -/
theorem C6_period_filter_exact (d : Nat) :
    _intervals_for_date d "morning" =
      (_intervals_for_date d "").filter (fun iv => decide (iv.2 ≤ d * 1440 + MORNING_END)) ∧
    _intervals_for_date d "afternoon" =
      (_intervals_for_date d "").filter (fun iv => decide (d * 1440 + MORNING_END ≤ iv.1)) := by
  have h7 : d % 7 = 0 ∨ d % 7 = 1 ∨ d % 7 = 2 ∨ d % 7 = 3 ∨ d % 7 = 4 ∨ d % 7 = 5 ∨
      d % 7 = 6 := by omega
  unfold _intervals_for_date BUSINESS_HOURS block_filter MORNING_END
  rcases h7 with h | h | h | h | h | h | h <;> rw [h] <;> simp

/-- Dialog states (the STATE_* constants shared by app/services/whatsapp.py
    and app/api/whatsapp.py). -/
inductive DState
  | IDLE
  | DATE_PICK
  | DATE_FREEFORM
  | WAITING_NAME
  | WAITING_EMAIL
  | WAITING_ADDRESS
  | WAITING_DESCRIPTION
  | WAITING_CONFIRMATION
deriving DecidableEq, Repr

/-- The session's open string-keyed data map, restricted to the keys the
    handlers read or write; an absent key is the default (falsy/empty) value,
    matching data.get(...). -/
structure SessData where
  menu_shown : Bool := false
  slots : List String := []
  chosen_slot : String := ""
  name : String := ""
  email : String := ""
  address : String := ""
  description : String := ""
  info_mode : Bool := false
deriving DecidableEq, Repr

/-- Outbound messages of the handlers, one constructor per distinct message
    kind; slotMenu carries the three rendered slot lines and stands for the
    message that also always shows the fixed "4 other date" and
    "5 main menu" options. -/
inductive Msg
  | menu
  | info
  | calcLink
  | invalidOption
  | slotMenu (s1 s2 s3 : String)
  | chosen (slot : String)
  | datePrompt
  | namePrompt
  | emailPrompt
  | addressPrompt
  | descPrompt
  | confirmPrompt (slot name email address desc : String)
  | infoMenu
  | errEmpty (st : DState)
  | errNameLen
  | errEmail
  | errAddrLen
  | errDescLen
  | errDateFormat
  | errDatePast
  | errDateFar
  | errNoSlots
  | errFetch (e : String)
  | createUnavailable
  | bookingOk (m : String)
  | bookingFail (m : String)
  | cancelled
  | correcting
  | apiConfirm (slot name email address desc : String)
deriving DecidableEq, Repr

/-- NAME_MIN_LEN / NAME_MAX_LEN / ADDRESS_MAX_LEN / DESCRIPTION_MAX_LEN in
    app/services/whatsapp.py. -/
def NAME_MIN_LEN : Nat := 3
def NAME_MAX_LEN : Nat := 60
def ADDRESS_MAX_LEN : Nat := 120
def DESCRIPTION_MAX_LEN : Nat := 300

/-- Whether a character matches the regex class [^@\s] (not '@', not ASCII
    whitespace) of the email pattern at line 394 of services/whatsapp.py. -/
def is_seg_char (c : Char) : Bool :=
  c != '@' &&
    !(c == ' ' || c == '\t' || c == '\n' || c == '\r' || c == '\x0b' || c == '\x0c')

/-- Decision procedure for the anchored email regex of line 394,
    local-part at-sign domain-part: exactly one '@'; a nonempty local part of
    [^@\s] characters; a domain part of [^@\s] characters containing a '.'
    with at least one character before it and one after it. -/
def email_ok (text : String) : Bool :=
  match text.splitOn "@" with
  | [a, b] =>
    decide (0 < a.length) && a.toList.all is_seg_char && b.toList.all is_seg_char &&
      (List.range b.length).any (fun i =>
        b.toList.getD i ' ' == '.' && decide (1 ≤ i) && decide (i + 2 ≤ b.length))
  | _ => false

/-- The _fetch_slots helper of services/whatsapp.py: raw is the
    available_slots list from list_next_slots after the
    strftime("%d-%m-%Y %H:%M") rendering (abstracted to strings); none models
    the unavailable-service path (ReservationService construction failed).
    With no slots it raises (error), otherwise it returns the first three. -/
def _fetch_slots (raw : Option (List String)) : Except String (List String) :=
  match raw with
  | none => .error "service_unavailable"
  | some l => if l.isEmpty then .error "no_slots" else .ok (l.take 3)

/-- build_slot_menu of services/whatsapp.py renders formatted slot lines 0, 1
    and 2 plus the fixed option lines; with fewer than three slots the Python
    list indexing raises IndexError, modelled as none. -/
def build_slot_menu (slots : List String) : Option Msg :=
  match slots with
  | s1 :: s2 :: s3 :: _ => some (.slotMenu s1 s2 s3)
  | _ => none

/-- render_state_prompt of services/whatsapp.py. -/
def render_state_prompt (st : DState) (d : SessData) : Msg :=
  match st with
  | .IDLE => .menu
  | .DATE_PICK =>
    match d.slots with
    | s1 :: s2 :: s3 :: _ => .slotMenu s1 s2 s3
    | _ => .menu
  | .WAITING_CONFIRMATION =>
    .confirmPrompt d.chosen_slot d.name d.email d.address d.description
  | .DATE_FREEFORM => .datePrompt
  | .WAITING_NAME => .namePrompt
  | .WAITING_EMAIL => .emailPrompt
  | .WAITING_ADDRESS => .addressPrompt
  | .WAITING_DESCRIPTION => .descPrompt

/-- Result of handling one inbound message: the session row as stored when
    the handler finishes (state and data), the outbound messages, and whether
    an uncaught exception escaped after any partial effects (crashed = true
    means no well-formed response was produced). -/
structure HandlerResult where
  state : DState
  data : SessData
  msgs : List Msg
  crashed : Bool
deriving DecidableEq, Repr

/-- handle_whatsapp_message of app/services/whatsapp.py (the handler used by
    the console entry point).  text is the stripped body.  External effects
    are parameters: raw is the calendar answer behind _fetch_slots for the
    single fetch a turn can make; today the current date's day index;
    parse_ddmmyyyy the DD-MM-YYYY date parser (datetime.strptime, abstracted);
    parse_slot the _parse_slot_ddmmyyyy_hhmm parser; service_up whether
    _get_reservation_service returned a service; create_outcome the
    (created, message) outcome of create_reservation with exceptions folded
    to created = False.  This handler has no menu-reset vocabulary check. -/
def handle_whatsapp_message (text : String) (st : DState) (data : SessData)
    (raw : Option (List String)) (today : Nat) (parse_ddmmyyyy : String → Option Nat)
    (parse_slot : String → Option (String × String)) (service_up : Bool)
    (create_outcome : Bool × String) : HandlerResult :=
  match st with
  | .IDLE =>
    if text ≠ "1" ∧ text ≠ "2" ∧ text ≠ "3" then
      if data.menu_shown then ⟨.IDLE, data, [.invalidOption, .menu], false⟩
      else ⟨.IDLE, { data with menu_shown := true }, [.menu], false⟩
    else if text = "1" then
      match _fetch_slots raw with
      | .error e => ⟨.IDLE, {}, [.errFetch e, .menu], false⟩
      | .ok slots =>
        match build_slot_menu slots with
        | some m => ⟨.DATE_PICK, { slots := slots }, [m], false⟩
        | none => ⟨.DATE_PICK, { slots := slots }, [], true⟩
    else if text = "2" then ⟨.IDLE, {}, [.info], false⟩
    else ⟨.IDLE, {}, [.calcLink], false⟩
  | .DATE_PICK =>
    let slots := data.slots
    if text ≠ "1" ∧ text ≠ "2" ∧ text ≠ "3" ∧ text ≠ "4" ∧ text ≠ "5" then
      ⟨.DATE_PICK, data, [.invalidOption, render_state_prompt .DATE_PICK { slots := slots }],
        false⟩
    else if text = "1" ∨ text = "2" ∨ text = "3" then
      if slots.length < 3 then ⟨.IDLE, {}, [.errNoSlots, .menu], false⟩
      else
        let idx := if text = "1" then 0 else if text = "2" then 1 else 2
        let chosen := slots.getD idx ""
        ⟨.WAITING_NAME, { chosen_slot := chosen }, [.chosen chosen], false⟩
    else if text = "4" then ⟨.DATE_FREEFORM, {}, [.datePrompt], false⟩
    else ⟨.IDLE, {}, [.menu], false⟩
  | .DATE_FREEFORM =>
    match parse_ddmmyyyy text with
    | some d2 =>
      if d2 < today then ⟨.DATE_FREEFORM, data, [.errDatePast, .datePrompt], false⟩
      else if today + 90 < d2 then ⟨.DATE_FREEFORM, data, [.errDateFar, .datePrompt], false⟩
      else
        match _fetch_slots raw with
        | .error e => ⟨.IDLE, {}, [.errFetch e, .menu], false⟩
        | .ok slots =>
          match build_slot_menu slots with
          | some m => ⟨.DATE_PICK, { slots := slots }, [m], false⟩
          | none => ⟨.DATE_PICK, { slots := slots }, [], true⟩
    | none => ⟨.DATE_FREEFORM, data, [.errDateFormat, .datePrompt], false⟩
  | .WAITING_NAME =>
    if text = "" then ⟨.WAITING_NAME, data, [.errEmpty .WAITING_NAME, .namePrompt], false⟩
    else if text.length < NAME_MIN_LEN ∨ NAME_MAX_LEN < text.length then
      ⟨.WAITING_NAME, data, [.errNameLen, .namePrompt], false⟩
    else ⟨.WAITING_EMAIL, { data with name := text }, [.emailPrompt], false⟩
  | .WAITING_EMAIL =>
    if text = "" then ⟨.WAITING_EMAIL, data, [.errEmpty .WAITING_EMAIL, .emailPrompt], false⟩
    else if !email_ok text then ⟨.WAITING_EMAIL, data, [.errEmail, .emailPrompt], false⟩
    else ⟨.WAITING_ADDRESS, { data with email := text }, [.addressPrompt], false⟩
  | .WAITING_ADDRESS =>
    if text = "" then ⟨.WAITING_ADDRESS, data, [.errEmpty .WAITING_ADDRESS, .addressPrompt], false⟩
    else if ADDRESS_MAX_LEN < text.length then
      ⟨.WAITING_ADDRESS, data, [.errAddrLen, .addressPrompt], false⟩
    else ⟨.WAITING_DESCRIPTION, { data with address := text }, [.descPrompt], false⟩
  | .WAITING_DESCRIPTION =>
    if text = "" then
      ⟨.WAITING_DESCRIPTION, data, [.errEmpty .WAITING_DESCRIPTION, .descPrompt], false⟩
    else if DESCRIPTION_MAX_LEN < text.length then
      ⟨.WAITING_DESCRIPTION, data, [.errDescLen, .descPrompt], false⟩
    else
      ⟨.WAITING_CONFIRMATION, { data with description := text },
        [render_state_prompt .WAITING_CONFIRMATION { data with description := text }], false⟩
  | .WAITING_CONFIRMATION =>
    if data.info_mode then
      if text ≠ "1" ∧ text ≠ "2" then
        ⟨.WAITING_CONFIRMATION, data, [.invalidOption, .infoMenu], false⟩
      else if text = "1" then
        match _fetch_slots raw with
        | .error e => ⟨.IDLE, {}, [.errFetch e, .menu], false⟩
        | .ok slots =>
          match build_slot_menu slots with
          | some m => ⟨.DATE_PICK, { slots := slots }, [m], false⟩
          | none => ⟨.DATE_PICK, { slots := slots }, [], true⟩
      else ⟨.IDLE, {}, [.menu], false⟩
    else if text ≠ "1" ∧ text ≠ "2" ∧ text ≠ "3" then
      ⟨.WAITING_CONFIRMATION, data,
        [.invalidOption, render_state_prompt .WAITING_CONFIRMATION data], false⟩
    else if text = "1" then
      match parse_slot data.chosen_slot, service_up with
      | some ps, true =>
        if create_outcome.1 then ⟨.IDLE, {}, [.bookingOk create_outcome.2], false⟩
        else ⟨.IDLE, {}, [.bookingFail create_outcome.2, .menu], false⟩
      | _, _ => ⟨.IDLE, {}, [.createUnavailable, .menu], false⟩
    else if text = "2" then
      ⟨.WAITING_NAME, { chosen_slot := data.chosen_slot }, [.correcting], false⟩
    else ⟨.IDLE, {}, [.cancelled, .menu], false⟩

/-- MENU_COMMANDS of app/api/whatsapp.py: the fixed menu-reset vocabulary. -/
def MENU_COMMANDS : List String :=
  ["0", "menu", "menú", "principal", "menu principal", "menú principal"]

/-- Python str.lower restricted to the characters that can occur in the menu
    vocabulary: ASCII letters plus the accented letter of "menú". -/
def py_lower_char (c : Char) : Char :=
  if c = 'Ú' then 'ú' else c.toLower

/-- Lowercasing of the inbound text (text.lower() at line 186 of
    app/api/whatsapp.py). -/
def py_lower (s : String) : String :=
  String.mk (s.toList.map py_lower_char)

/-- handle_whatsapp_message of app/api/whatsapp.py (the legacy handler; not
    wired to any live route).  slot_options is _slot_options after the
    strftime rendering, as a function of the base day index; it always
    returns three synthetic slots in the Python code.  The global
    MENU_COMMANDS check runs before the session is consulted. -/
def api_handle_whatsapp_message (text : String) (st : DState) (data : SessData)
    (slot_options : Nat → List String) (parse_ddmmyyyy : String → Option Nat)
    (today : Nat) : HandlerResult :=
  let lower := py_lower text
  if MENU_COMMANDS.contains lower then ⟨.IDLE, {}, [.menu], false⟩
  else
    match st with
    | .IDLE =>
      if lower = "1" ∨ lower = "reservar" ∨ lower = "reserva" ∨ lower = "cita" ∨
          lower = "agendar" then
        let slots := slot_options (today + 1)
        match build_slot_menu slots with
        | some m => ⟨.DATE_PICK, { slots := slots }, [m], false⟩
        | none => ⟨.DATE_PICK, { slots := slots }, [], true⟩
      else if lower = "2" ∨ lower = "info" ∨ lower = "informacion" ∨ lower = "información" then
        ⟨.IDLE, {}, [.info], false⟩
      else if lower = "3" ∨ lower = "calculadora" ∨ lower = "presupuesto" then
        ⟨.IDLE, {}, [.calcLink], false⟩
      else ⟨.IDLE, data, [.menu], false⟩
    | .DATE_PICK =>
      let slots := data.slots
      if (lower = "1" ∨ lower = "2" ∨ lower = "3") ∧ 3 ≤ slots.length then
        let idx := if lower = "1" then 0 else if lower = "2" then 1 else 2
        let chosen := slots.getD idx ""
        ⟨.WAITING_NAME, { chosen_slot := chosen }, [.chosen chosen], false⟩
      else if lower = "4" ∨ lower = "otra" ∨ lower = "otra fecha" then
        ⟨.DATE_FREEFORM, {}, [.datePrompt], false⟩
      else if lower = "5" ∨ lower = "menu principal" ∨ lower = "menú principal" then
        ⟨.IDLE, {}, [.menu], false⟩
      else ⟨.DATE_PICK, data, [.invalidOption], false⟩
    | .DATE_FREEFORM =>
      match parse_ddmmyyyy text with
      | some d2 =>
        let slots := slot_options d2
        match build_slot_menu slots with
        | some m => ⟨.DATE_PICK, { slots := slots }, [m], false⟩
        | none => ⟨.DATE_PICK, { slots := slots }, [], true⟩
      | none => ⟨.DATE_FREEFORM, data, [.errDateFormat], false⟩
    | .WAITING_NAME =>
      if text ≠ "" then ⟨.WAITING_EMAIL, { data with name := text }, [.emailPrompt], false⟩
      else ⟨.WAITING_NAME, data, [.errEmpty .WAITING_NAME], false⟩
    | .WAITING_EMAIL =>
      if text ≠ "" then ⟨.WAITING_ADDRESS, { data with email := text }, [.addressPrompt], false⟩
      else ⟨.WAITING_EMAIL, data, [.errEmpty .WAITING_EMAIL], false⟩
    | .WAITING_ADDRESS =>
      if text ≠ "" then
        ⟨.WAITING_DESCRIPTION, { data with address := text }, [.descPrompt], false⟩
      else ⟨.WAITING_ADDRESS, data, [.errEmpty .WAITING_ADDRESS], false⟩
    | .WAITING_DESCRIPTION =>
      if text ≠ "" then
        ⟨.WAITING_CONFIRMATION, { data with description := text },
          [.confirmPrompt data.chosen_slot data.name data.email data.address text], false⟩
      else ⟨.WAITING_DESCRIPTION, data, [.errEmpty .WAITING_DESCRIPTION], false⟩
    | .WAITING_CONFIRMATION =>
      if lower = "1" ∨ lower = "confirmar" ∨ lower = "confirmar cita" then
        ⟨.IDLE, {},
          [.apiConfirm data.chosen_slot data.name data.email data.address data.description],
          false⟩
      else if lower = "2" ∨ lower = "corregir" ∨ lower = "corregir datos" then
        ⟨.WAITING_NAME, { chosen_slot := data.chosen_slot }, [.correcting], false⟩
      else ⟨.WAITING_CONFIRMATION, data, [.invalidOption], false⟩

/-- C4 counterexample: the live handler (app/services/whatsapp.py) performs
    no menu-reset vocabulary check: from WAITING_NAME the reset word "menu"
    (which is in MENU_COMMANDS) is consumed as an ordinary name, the state
    advances to WAITING_EMAIL instead of resetting to IDLE, and the session
    data records name = "menu". -/
theorem C4_service_handler_ignores_reset_cex :
    py_lower "menu" ∈ MENU_COMMANDS ∧
    (handle_whatsapp_message "menu" .WAITING_NAME {} none 0 (fun _ => none) (fun _ => none)
        false (false, "")).state = .WAITING_EMAIL ∧
    (handle_whatsapp_message "menu" .WAITING_NAME {} none 0 (fun _ => none) (fun _ => none)
        false (false, "")).data.name = "menu" := by
  refine ⟨by decide, by rfl, by rfl⟩

/-- C4 amended: only the legacy handler in app/api/whatsapp.py implements the
    global override: for every session state and data, an inbound text whose
    lowercasing is in the fixed MENU_COMMANDS vocabulary makes that handler
    reset the session to IDLE with empty data and emit only the main menu,
    before any per-state logic (the result does not depend on the state or
    data at all). -/
theorem C4_reset_vocabulary_legacy_handler (text : String) (st : DState) (data : SessData)
    (slot_options : Nat → List String) (parse_ddmmyyyy : String → Option Nat) (today : Nat)
    (h : py_lower text ∈ MENU_COMMANDS) :
    api_handle_whatsapp_message text st data slot_options parse_ddmmyyyy today =
      ⟨.IDLE, {}, [.menu], false⟩ := by
  simp only [api_handle_whatsapp_message]
  rw [if_pos (by simpa using h)]

/-- C4 witness: the uppercase reset word from a mid-dialog state. -/
theorem C4_reset_vocabulary_legacy_handler_witness :
    py_lower "MENÚ" ∈ MENU_COMMANDS ∧
    api_handle_whatsapp_message "MENÚ" .WAITING_ADDRESS { name := "x" } (fun _ => [])
        (fun _ => none) 0 = ⟨.IDLE, {}, [.menu], false⟩ :=
  ⟨by decide,
    C4_reset_vocabulary_legacy_handler "MENÚ" .WAITING_ADDRESS { name := "x" } (fun _ => [])
      (fun _ => none) 0 (by decide)⟩

/-- C5 counterexample: a successful (non-error) slot fetch can return fewer
    than three slots (list_next_slots returns fewer when the lookahead is
    exhausted; _fetch_slots only raises when it gets zero).  With two slots
    the handler saves state DATE_PICK and then build_slot_menu indexes
    formatted[2] out of range: the turn ends in an uncaught IndexError with
    no slot-menu response, so the response does not contain three offered
    slots. -/
theorem C5_fewer_than_three_slots_cex :
    _fetch_slots (some ["a", "b"]) = .ok ["a", "b"] ∧
    handle_whatsapp_message "1" .IDLE {} (some ["a", "b"]) 0 (fun _ => none) (fun _ => none)
        false (false, "") = ⟨.DATE_PICK, { slots := ["a", "b"] }, [], true⟩ := by
  refine ⟨by rfl, by rfl⟩

/-- C5 amended: when the user sends "1" from IDLE and the slot fetch succeeds
    with at least three slots, the response is exactly the slot menu showing
    the first three fetched slots (plus its fixed "other date" and "menu"
    option lines), the saved session state is DATE_PICK and its data stores
    exactly those three slots; with one or two slots the handler instead
    saves DATE_PICK and crashes while rendering the menu (see the
    counterexample). -/
theorem C5_idle_one_gives_slot_menu (data : SessData) (l : List String) (today : Nat)
    (parse_ddmmyyyy : String → Option Nat) (parse_slot : String → Option (String × String))
    (service_up : Bool) (create_outcome : Bool × String) (h : 3 ≤ l.length) :
    handle_whatsapp_message "1" .IDLE data (some l) today parse_ddmmyyyy parse_slot
        service_up create_outcome =
      ⟨.DATE_PICK, { slots := l.take 3 },
        [.slotMenu (l.getD 0 "") (l.getD 1 "") (l.getD 2 "")], false⟩ := by
  match l, h with
  | a :: b :: c :: rest, _ =>
    simp [handle_whatsapp_message, _fetch_slots, build_slot_menu]

/-- C5 amended witness: a three-slot fetch from IDLE. -/
theorem C5_idle_one_gives_slot_menu_witness :
    handle_whatsapp_message "1" .IDLE {} (some ["a", "b", "c"]) 0 (fun _ => none)
        (fun _ => none) false (false, "") =
      ⟨.DATE_PICK, { slots := ["a", "b", "c"] }, [.slotMenu "a" "b" "c"], false⟩ :=
  C5_idle_one_gives_slot_menu {} ["a", "b", "c"] 0 (fun _ => none) (fun _ => none) false
    (false, "") (by decide)

/-- The valid-input set of each dialog state, following the specification's
    per-state contract table: the numeric menu digits for IDLE, DATE_PICK and
    WAITING_CONFIRMATION; a parseable DD-MM-YYYY date within
    [today, today + 90] for DATE_FREEFORM; name length within
    [NAME_MIN_LEN, NAME_MAX_LEN]; the email pattern; address and description
    length caps. -/
def valid_input (st : DState) (text : String) (today : Nat)
    (parse_ddmmyyyy : String → Option Nat) : Bool :=
  match st with
  | .IDLE => text == "1" || text == "2" || text == "3"
  | .DATE_PICK => text == "1" || text == "2" || text == "3" || text == "4" || text == "5"
  | .DATE_FREEFORM =>
    match parse_ddmmyyyy text with
    | some d2 => decide (today ≤ d2 ∧ d2 ≤ today + 90)
    | none => false
  | .WAITING_NAME => decide (NAME_MIN_LEN ≤ text.length ∧ text.length ≤ NAME_MAX_LEN)
  | .WAITING_EMAIL => email_ok text
  | .WAITING_ADDRESS => decide (text.length ≤ ADDRESS_MAX_LEN)
  | .WAITING_DESCRIPTION => decide (text.length ≤ DESCRIPTION_MAX_LEN)
  | .WAITING_CONFIRMATION => text == "1" || text == "2" || text == "3"

/-- C7: for every defined dialog state and every inbound input outside that
    state's valid-input set, the live handler leaves the session's state
    field unchanged (it re-prompts, and at most toggles the IDLE menu_shown
    flag in the data map). -/
theorem C7_invalid_input_state_unchanged (st : DState) (text : String) (data : SessData)
    (raw : Option (List String)) (today : Nat) (parse_ddmmyyyy : String → Option Nat)
    (parse_slot : String → Option (String × String)) (service_up : Bool)
    (create_outcome : Bool × String)
    (h : valid_input st text today parse_ddmmyyyy = false) :
    (handle_whatsapp_message text st data raw today parse_ddmmyyyy parse_slot service_up
      create_outcome).state = st := by
  cases st with
  | IDLE =>
    simp only [valid_input, Bool.or_eq_false_iff, beq_eq_false_iff_ne, ne_eq] at h
    obtain ⟨⟨h1, h2⟩, h3⟩ := h
    simp only [handle_whatsapp_message]
    rw [if_pos ⟨h1, h2, h3⟩]
    split <;> rfl
  | DATE_PICK =>
    simp only [valid_input, Bool.or_eq_false_iff, beq_eq_false_iff_ne, ne_eq] at h
    obtain ⟨⟨⟨⟨h1, h2⟩, h3⟩, h4⟩, h5⟩ := h
    simp only [handle_whatsapp_message]
    rw [if_pos ⟨h1, h2, h3, h4, h5⟩]
  | DATE_FREEFORM =>
    simp only [valid_input] at h
    simp only [handle_whatsapp_message]
    cases hp : parse_ddmmyyyy text with
    | none => rfl
    | some d2 =>
      rw [hp] at h
      dsimp only
      simp only [decide_eq_false_iff_not, not_and, not_le] at h
      by_cases hpast : d2 < today
      · rw [if_pos hpast]
      · rw [if_neg hpast]
        rw [if_pos (by omega)]
  | WAITING_NAME =>
    simp only [valid_input, decide_eq_false_iff_not, not_and, not_le, NAME_MIN_LEN,
      NAME_MAX_LEN] at h
    simp only [handle_whatsapp_message]
    by_cases he : text = ""
    · rw [if_pos he]
    · rw [if_neg he]
      rw [if_pos ?_]
      simp only [NAME_MIN_LEN, NAME_MAX_LEN]
      by_cases h3 : text.length < 3
      · exact Or.inl h3
      · exact Or.inr (h (by omega))
  | WAITING_EMAIL =>
    simp only [valid_input] at h
    simp only [handle_whatsapp_message]
    by_cases he : text = ""
    · rw [if_pos he]
    · rw [if_neg he]
      rw [if_pos (by simp [h])]
  | WAITING_ADDRESS =>
    simp only [valid_input, decide_eq_false_iff_not, not_le, ADDRESS_MAX_LEN] at h
    simp only [handle_whatsapp_message]
    rw [if_neg (by intro he; rw [he] at h; simp at h)]
    rw [if_pos (by simpa [ADDRESS_MAX_LEN] using h)]
  | WAITING_DESCRIPTION =>
    simp only [valid_input, decide_eq_false_iff_not, not_le, DESCRIPTION_MAX_LEN] at h
    simp only [handle_whatsapp_message]
    rw [if_neg (by intro he; rw [he] at h; simp at h)]
    rw [if_pos (by simpa [DESCRIPTION_MAX_LEN] using h)]
  | WAITING_CONFIRMATION =>
    simp only [valid_input, Bool.or_eq_false_iff, beq_eq_false_iff_ne, ne_eq] at h
    obtain ⟨⟨h1, h2⟩, h3⟩ := h
    simp only [handle_whatsapp_message]
    by_cases hm : data.info_mode
    · rw [if_pos hm]
      rw [if_pos ⟨h1, h2⟩]
    · rw [if_neg hm]
      rw [if_pos ⟨h1, h2, h3⟩]

/-- C7 witness: a two-character name from WAITING_NAME is rejected and the
    state stays WAITING_NAME. -/
theorem C7_invalid_input_state_unchanged_witness :
    valid_input .WAITING_NAME "ab" 0 (fun _ => none) = false ∧
    (handle_whatsapp_message "ab" .WAITING_NAME {} none 0 (fun _ => none) (fun _ => none)
      false (false, "")).state = .WAITING_NAME :=
  ⟨by decide,
    C7_invalid_input_state_unchanged .WAITING_NAME "ab" {} none 0 (fun _ => none)
      (fun _ => none) false (false, "") (by decide)⟩
